import Mathlib

/-!
Verification development for the PaperBanana Web UI backend
(`src/web/app.py`): a FastAPI application exposing a streaming generation
endpoint (`POST /api/generate`, Server-Sent Events), an image-serving
endpoint (`GET /api/images/{path:path}`), and small helpers
(`_resolve_api_key`, `_sse`, `_to_image_url`).

The Python code is shallowly embedded: JSON payloads become the `PJson`
inductive, `pathlib.Path` values become `PyPath`, the process environment
and task bookkeeping become an explicit `World` record, and the SSE
generator's cooperative interleaving with the background pipeline task
becomes a step function over an explicit schedule of scheduler events.
-/

set_option linter.unusedVariables false

/-- JSON values, as produced by the Python dict/list/str/int/bool/None
payloads that `app.py` passes to `json.dumps`.  Numbers are integers: every
numeric payload field in `app.py` is a Python `int`. -/
inductive PJson where
  | null
  | bool (b : Bool)
  | num (n : Int)
  | str (s : String)
  | arr (xs : List PJson)
  | obj (kvs : List (String × PJson))

/-- Lower-case hexadecimal digit characters, as used by Python's
`json.dumps` in `\uXXXX` escapes (and reused for decimal digits). -/
def hexDigit (n : Nat) : Char :=
  match n with
  | 0 => '0' | 1 => '1' | 2 => '2' | 3 => '3' | 4 => '4'
  | 5 => '5' | 6 => '6' | 7 => '7' | 8 => '8' | 9 => '9'
  | 10 => 'a' | 11 => 'b' | 12 => 'c' | 13 => 'd' | 14 => 'e'
  | _ => 'f'

/-- A `\uXXXX` escape for a code unit `v < 0x10000`. -/
def uEscape (v : Nat) : List Char :=
  ['\\', 'u', hexDigit (v / 4096 % 16), hexDigit (v / 256 % 16),
   hexDigit (v / 16 % 16), hexDigit (v % 16)]

/-- Python `json.dumps` escaping of one character inside a string literal
(`ensure_ascii=True`, the default used by `app.py`): the two-character
escapes for quote, backslash and control characters with short names,
`\uXXXX` for other characters outside `0x20..0x7e` (as a surrogate pair
above the BMP), and the character itself otherwise. -/
def escapeChar (c : Char) : List Char :=
  if c = '"' then ['\\', '"']
  else if c = '\\' then ['\\', '\\']
  else if c = '\x08' then ['\\', 'b']
  else if c = '\x0c' then ['\\', 'f']
  else if c = '\n' then ['\\', 'n']
  else if c = '\x0d' then ['\\', 'r']
  else if c = '\x09' then ['\\', 't']
  else if c.toNat < 0x20 || 0x7e < c.toNat then
    if c.toNat < 0x10000 then uEscape c.toNat
    else
      uEscape (0xd800 + (c.toNat - 0x10000) / 0x400) ++
        uEscape (0xdc00 + (c.toNat - 0x10000) % 0x400)
  else [c]

/-- Decimal digit characters of a natural number, most significant first
(the character content of Python's `str(n)` for `n ≥ 0`). -/
def natChars (n : Nat) : List Char :=
  if n < 10 then [hexDigit n]
  else natChars (n / 10) ++ [hexDigit (n % 10)]
decreasing_by exact Nat.div_lt_self (by omega) (by omega)

/-- Character content of Python's `str(i)` for an `int` `i`. -/
def intChars (i : Int) : List Char :=
  if i < 0 then '-' :: natChars (-i).toNat else natChars i.toNat

/-- Python `json.dumps` rendering of a string: quote, escaped characters,
quote. -/
def strDump (s : String) : List Char :=
  '"' :: (s.data.map escapeChar).flatten ++ ['"']

/-- Join chunks with Python `json.dumps`'s default item separator `", "`. -/
def joinComma : List (List Char) → List Char
  | [] => []
  | [x] => x
  | x :: xs => x ++ ',' :: ' ' :: joinComma xs

/-- Character content of Python's `json.dumps(v)` with default arguments
(`ensure_ascii=True`, separators `", "` and `": "`, no indent), as called
by `_sse` in `app.py`. -/
def PJson.dumps : PJson → List Char
  | .null => "null".data
  | .bool true => "true".data
  | .bool false => "false".data
  | .num n => intChars n
  | .str s => strDump s
  | .arr xs => '[' :: joinComma (xs.attach.map fun x => PJson.dumps x.1) ++ [']']
  | .obj kvs =>
      '\x7b' :: joinComma (kvs.attach.map fun kv =>
        strDump kv.1.1 ++ ':' :: ' ' :: PJson.dumps kv.1.2) ++ ['\x7d']
decreasing_by
  · have := List.sizeOf_lt_of_mem x.2
    simp only [PJson.arr.sizeOf_spec]
    omega
  · obtain ⟨⟨k, v⟩, hkv⟩ := kv
    have := List.sizeOf_lt_of_mem hkv
    simp only [Prod.mk.sizeOf_spec] at this
    simp only [PJson.obj.sizeOf_spec]
    omega

/-- `_sse` from `app.py`, literally:
`return f"event: {event}\ndata: {json.dumps(data)}\n\n"`. -/
def _sse (event : String) (data : PJson) : String :=
  "event: " ++ event ++ "\n" ++ "data: " ++ String.mk data.dumps ++ "\n\n"

theorem hexDigit_ne_newline (n : Nat) : hexDigit n ≠ '\n' := by
  rcases n with _|_|_|_|_|_|_|_|_|_|_|_|_|_|_|n <;> simp [hexDigit]

theorem nnlCons {c : Char} {l : List Char} (hc : '\n' ≠ c)
    (hl : '\n' ∉ l) : '\n' ∉ c :: l := by
  intro h
  rcases List.mem_cons.mp h with h | h
  · exact hc h
  · exact hl h

theorem nnlAppend {l1 l2 : List Char} (h1 : '\n' ∉ l1) (h2 : '\n' ∉ l2) :
    '\n' ∉ l1 ++ l2 := by
  intro h
  rcases List.mem_append.mp h with h | h
  · exact h1 h
  · exact h2 h

theorem nnlFlatten {ls : List (List Char)} (h : ∀ l ∈ ls, '\n' ∉ l) :
    '\n' ∉ ls.flatten := by
  intro hc
  obtain ⟨l, hl, hcl⟩ := List.mem_flatten.mp hc
  exact h l hl hcl

theorem newline_not_mem_uEscape (v : Nat) : '\n' ∉ uEscape v :=
  nnlCons (by decide) <| nnlCons (by decide) <|
    nnlCons (Ne.symm (hexDigit_ne_newline _)) <|
    nnlCons (Ne.symm (hexDigit_ne_newline _)) <|
    nnlCons (Ne.symm (hexDigit_ne_newline _)) <|
    nnlCons (Ne.symm (hexDigit_ne_newline _)) (List.not_mem_nil _)

theorem newline_not_mem_escapeChar (c : Char) : '\n' ∉ escapeChar c := by
  unfold escapeChar
  split_ifs with h1 h2 h3 h4 h5 h6 h7 h8 h9
  · decide
  · decide
  · decide
  · decide
  · decide
  · decide
  · decide
  · exact newline_not_mem_uEscape _
  · exact nnlAppend (newline_not_mem_uEscape _) (newline_not_mem_uEscape _)
  · -- literal-character branch: `c` lies in `0x20..0x7e`, so it is not `'\n'`
    intro h
    have hc : '\n' = c := List.mem_singleton.mp h
    rw [← hc] at h8
    exact h8 (by decide)

theorem newline_not_mem_natChars (n : Nat) : '\n' ∉ natChars n := by
  induction n using Nat.strong_induction_on with
  | _ n ih =>
    rw [natChars]
    split_ifs with h
    · exact nnlCons (Ne.symm (hexDigit_ne_newline _)) (List.not_mem_nil _)
    · exact nnlAppend (ih (n / 10) (Nat.div_lt_self (by omega) (by omega)))
        (nnlCons (Ne.symm (hexDigit_ne_newline _)) (List.not_mem_nil _))

theorem newline_not_mem_intChars (i : Int) : '\n' ∉ intChars i := by
  unfold intChars
  split_ifs with h
  · exact nnlCons (by decide) (newline_not_mem_natChars _)
  · exact newline_not_mem_natChars _

theorem newline_not_mem_strDump (s : String) : '\n' ∉ strDump s := by
  refine nnlCons (by decide) (nnlAppend (nnlFlatten ?_) (by decide))
  intro l hl
  obtain ⟨c, hc, rfl⟩ := List.mem_map.mp hl
  exact newline_not_mem_escapeChar c

theorem newline_not_mem_joinComma (xs : List (List Char))
    (h : ∀ x ∈ xs, '\n' ∉ x) : '\n' ∉ joinComma xs := by
  induction xs with
  | nil => simp [joinComma]
  | cons x xs ih =>
    cases xs with
    | nil => exact h x (by simp)
    | cons y ys =>
      show '\n' ∉ x ++ ',' :: ' ' :: joinComma (y :: ys)
      exact nnlAppend (h x (by simp))
        (nnlCons (by decide) (nnlCons (by decide)
          (ih (fun z hz => h z (List.mem_cons_of_mem _ hz)))))

/-- The serialized JSON payload contains no raw newline character: every
character `json.dumps` emits is either part of an ASCII escape sequence or
a literal character in `0x20..0x7e`. -/
theorem newline_not_mem_dumps (j : PJson) : '\n' ∉ j.dumps := by
  induction j using PJson.dumps.induct with
  | case1 => simp [PJson.dumps]
  | case2 => simp [PJson.dumps]
  | case3 => simp [PJson.dumps]
  | case4 n => simpa [PJson.dumps] using newline_not_mem_intChars n
  | case5 s => simpa [PJson.dumps] using newline_not_mem_strDump s
  | case6 xs ih =>
    rw [PJson.dumps]
    refine nnlCons (by decide)
      (nnlAppend (newline_not_mem_joinComma _ ?_) (by decide))
    intro l hl
    obtain ⟨⟨x, hx⟩, hmem, rfl⟩ := List.mem_map.mp hl
    exact ih ⟨x, hx⟩
  | case7 kvs ih =>
    rw [PJson.dumps]
    refine nnlCons (by decide)
      (nnlAppend (newline_not_mem_joinComma _ ?_) (by decide))
    intro l hl
    obtain ⟨⟨⟨k, v⟩, hkv⟩, hmem, rfl⟩ := List.mem_map.mp hl
    exact nnlAppend (newline_not_mem_strDump k)
      (nnlCons (by decide) (nnlCons (by decide) (ih ⟨(k, v), hkv⟩)))

/-- `C9`: the event encoder `_sse` produces exactly an event-name line,
one data line holding the payload as single-line JSON with no raw newline
inside it, and a blank line terminating the frame: splitting the frame on
newlines yields `["event: <kind>", "data: <json>", "", ""]` (the two empty
chunks being the frame-terminating blank line), for every event kind
(event names never contain a newline) and every JSON payload. -/
theorem sse_frame_exact (e : String) (d : PJson) (he : '\n' ∉ e.data) :
    (_sse e d).data.splitOn '\n' =
      ["event: ".data ++ e.data, "data: ".data ++ d.dumps, [], []] ∧
    '\n' ∉ d.dumps := by
  constructor
  · have hdata : (_sse e d).data =
        ['\n'].intercalate
          [("event: ".data ++ e.data), ("data: ".data ++ d.dumps), [], []] := by
      simp only [_sse, String.data_append]
      simp [List.intercalate, List.intersperse]
    rw [hdata]
    refine List.splitOn_intercalate _ '\n' ?_ (by simp)
    intro l hl
    rcases List.mem_cons.mp hl with rfl | hl
    · exact nnlAppend (by decide) he
    rcases List.mem_cons.mp hl with rfl | hl
    · exact nnlAppend (by decide) (newline_not_mem_dumps d)
    rcases List.mem_cons.mp hl with rfl | hl
    · exact List.not_mem_nil _
    rcases List.mem_cons.mp hl with rfl | hl
    · exact List.not_mem_nil _
    · exact absurd hl (List.not_mem_nil _)
  · exact newline_not_mem_dumps d

/-- Witness for `sse_frame_exact` at the concrete `status` event kind with
the concrete payload used by the first `yield` of `app.py`'s stream. -/
theorem sse_frame_exact_witness :
    '\n' ∉ ("status" : String).data ∧
    (_sse "status" (.obj [("message", .str "Initializing pipeline...")])).data.splitOn '\n' =
      ["event: ".data ++ ("status" : String).data,
       "data: ".data ++ (PJson.obj [("message", .str "Initializing pipeline...")]).dumps,
       [], []] := by
  refine ⟨by decide, ?_⟩
  exact (sse_frame_exact "status"
    (.obj [("message", .str "Initializing pipeline...")]) (by decide)).1


/-!
## Filesystem paths

`pathlib.Path` values from `app.py`, modelled as POSIX pure paths: an
absolute flag plus the list of components (empty and `"."` components are
dropped by the constructor, `".."` components are kept, exactly as in
`pathlib`).  String operations are carried out on character lists so that
every definition evaluates inside the kernel.
-/

structure PyPath where
  absolute : Bool
  parts : List String
deriving DecidableEq

/-- `pathlib.Path(s)` for a string `s` (POSIX flavour): absolute iff the
string starts with `/`; empty and `"."` components are dropped, `".."` is
kept. -/
def parsePath (s : String) : PyPath :=
  { absolute := match s.data with | '/' :: _ => true | _ => false,
    parts := ((s.data.splitOn '/').filter fun cs =>
      cs ≠ [] ∧ cs ≠ ['.']).map String.mk }

/-- The `/` operator on `pathlib` paths: if the right operand is absolute
it replaces the left entirely; otherwise the components concatenate. -/
def PyPath.join (a b : PyPath) : PyPath :=
  if b.absolute then b
  else { absolute := a.absolute, parts := a.parts ++ b.parts }

/-- `Path.name`: the final component (empty for an empty path). -/
def PyPath.pyName (p : PyPath) : String :=
  p.parts.getLastD ""

/-- `Path.relative_to(base)`: succeeds iff the anchors agree and `base`'s
components are a prefix, returning a relative path of the remaining
components (raises `ValueError`, i.e. `none`, otherwise). -/
def PyPath.relativeTo (p base : PyPath) : Option PyPath :=
  if p.absolute = base.absolute ∧ base.parts.isPrefixOf p.parts then
    some { absolute := false, parts := p.parts.drop base.parts.length }
  else none

/-- Join components with `/` (the separator of `str(path)`). -/
def joinSlash : List (List Char) → List Char
  | [] => []
  | [x] => x
  | x :: xs => x ++ '/' :: joinSlash xs

/-- `str(path)` for a POSIX path (`"."` for an empty relative path). -/
def PyPath.toStr (p : PyPath) : String :=
  if p.absolute then String.mk ('/' :: joinSlash (p.parts.map String.data))
  else if p.parts = [] then "."
  else String.mk (joinSlash (p.parts.map String.data))

/-- Resolve `".."` components the way the operating system does when a
path is dereferenced: a `".."` pops the previous component; on an absolute
path a `".."` at the root stays at the root; on a relative path leading
`".."` components accumulate (they climb above the start directory).
`acc` holds the already-normalized components in reverse. -/
def normAux (isAbs : Bool) : List String → List String → List String
  | acc, [] => acc.reverse
  | acc, s :: rest =>
    if s = ".." then
      match acc with
      | [] => if isAbs then normAux isAbs [] rest else normAux isAbs [".."] rest
      | a :: acc' =>
        if a = ".." then normAux isAbs (".." :: a :: acc') rest
        else normAux isAbs acc' rest
    else normAux isAbs (s :: acc) rest

/-- `".."`-normalization of a path (the location the operating system
actually dereferences when the path is opened). -/
def PyPath.normalize (p : PyPath) : PyPath :=
  { absolute := p.absolute, parts := normAux p.absolute [] p.parts }

/-- The filesystem location a path denotes for the running process:
relative paths are resolved against the current working directory, and
`".."` components are collapsed. -/
def resolveAgainst (cwd p : PyPath) : PyPath :=
  (if p.absolute then p else cwd.join p).normalize

/-- A filesystem oracle: which (absolute, normalized) locations exist.
`Path.exists()` on a path `p` is `pathExists fs cwd p`. -/
def pathExists (fs : PyPath → Bool) (cwd : PyPath) (p : PyPath) : Bool :=
  fs (resolveAgainst cwd p)

/-- `Path.suffix` (CPython: the part of the final component from its last
dot, provided that dot is neither the first nor the last character). -/
def pySuffix (s : String) : String :=
  let cs := s.data
  let after := (cs.reverse.takeWhile fun c => c ≠ '.').reverse
  if after.length = cs.length then ""
  else
    let i := cs.length - after.length - 1
    if 0 < i ∧ i < cs.length - 1 then String.mk ('.' :: after) else ""

/-- The extension key computed by `serve_image`:
`fp.suffix.lower().lstrip(".")`. -/
def extKey (p : PyPath) : String :=
  String.mk (((pySuffix p.pyName).data.map Char.toLower).dropWhile
    fun c => c = '.')

/-- The content-type mapping of `serve_image`:
`{"png": image/png, "jpg"|"jpeg": image/jpeg, "webp": image/webp}` with
`media.get(ext, "image/png")` as the lookup. -/
def mediaFor (ext : String) : String :=
  if ext = "png" then "image/png"
  else if ext = "jpg" then "image/jpeg"
  else if ext = "jpeg" then "image/jpeg"
  else if ext = "webp" then "image/webp"
  else "image/png"

/-- Responses of the image-serving endpoint: a `FileResponse` streaming
the file at a path with a content type, or a `JSONResponse` with an HTTP
status code and a JSON object body of string fields. -/
inductive ServeResponse where
  | file (path : PyPath) (mediaType : String)
  | jsonErr (status : Nat) (body : List (String × String))
deriving DecidableEq

/-- `serve_image` from `app.py`, literally: join the raw client-supplied
`path` (a `{path:path}` route parameter, which may contain `/`, `".."`
components, or even be absolute) under `Path("outputs")`, answer 404 if
the joined path does not exist, and otherwise serve the file with the
extension-derived content type.  No rejection or normalization of the
client-supplied path happens before the filesystem access. -/
def serve_image (fs : PyPath → Bool) (cwd : PyPath) (path : String) :
    ServeResponse :=
  let fp := (parsePath "outputs").join (parsePath path)
  if pathExists fs cwd fp = false then
    .jsonErr 404 [("error", "Image not found")]
  else
    .file fp (mediaFor (extKey fp))

/-- `_to_image_url` from `app.py`: `None` when the file does not exist;
otherwise `/api/images/{rel}` where `rel` is the path relative to
`cwd/outputs`, else relative to `outputs`, else the bare filename. -/
def _to_image_url (fs : PyPath → Bool) (cwd : PyPath) (image_path : String) :
    Option String :=
  let p := parsePath image_path
  if pathExists fs cwd p = false then none
  else
    let rel :=
      match p.relativeTo (cwd.join (parsePath "outputs")) with
      | some r => r
      | none =>
        match p.relativeTo (parsePath "outputs") with
        | some r => r
        | none => { absolute := false, parts := [p.pyName] }
    some ("/api/images/" ++ rel.toStr)

/-- Does a normalized location lie inside the `outputs` tree under `cwd`
(the tree `serve_image`'s docstring promises to serve from)? -/
def underOutputs (cwd : PyPath) (p : PyPath) : Bool :=
  p.absolute = cwd.absolute ∧
    (cwd.parts ++ ["outputs"]).isPrefixOf p.parts

/-- `C3` (failing input): `serve_image` does not reject client-supplied
parent-traversing or absolute paths before filesystem access.  With the
process working directory `/app`, a file `/app/secret.txt` lying *next to*
(not inside) the outputs root, and the client-supplied path
`"../secret.txt"`, the handler joins blindly, finds the file and serves
it; likewise the absolute path `"/etc/passwd"` replaces the `outputs`
prefix entirely under `pathlib`'s `/` operator and the file is served.
Both served locations lie outside the `outputs` root. -/
theorem serve_image_escapes_outputs_root :
    (serve_image
        (fun p => decide (p = ⟨true, ["app", "secret.txt"]⟩))
        ⟨true, ["app"]⟩ "../secret.txt" =
      .file ⟨false, ["outputs", "..", "secret.txt"]⟩ "image/png" ∧
     underOutputs ⟨true, ["app"]⟩
        (resolveAgainst ⟨true, ["app"]⟩
          ⟨false, ["outputs", "..", "secret.txt"]⟩) = false) ∧
    (serve_image
        (fun p => decide (p = ⟨true, ["etc", "passwd"]⟩))
        ⟨true, ["app"]⟩ "/etc/passwd" =
      .file ⟨true, ["etc", "passwd"]⟩ "image/png" ∧
     underOutputs ⟨true, ["app"]⟩
        (resolveAgainst ⟨true, ["app"]⟩ ⟨true, ["etc", "passwd"]⟩) = false) := by
  decide

/-- `C8` (counterexample): there is no registry and no fallback scan.  A
file named `img.png` exists under the top-level outputs directory
`run_B`, but a request for it under the unknown run id `run_A` answers
404 instead of serving the match found by the scan the claim describes. -/
theorem serve_image_no_fallback_scan_cex :
    serve_image
        (fun p => decide (p = ⟨true, ["app", "outputs", "run_B", "img.png"]⟩))
        ⟨true, ["app"]⟩ "run_A/img.png" =
      .jsonErr 404 [("error", "Image not found")] := by
  decide

/-- `C8` (amended): `serve_image` consults exactly one filesystem
location — `outputs/<path>` resolved against the working directory.  Its
response is invariant under changing the existence of every other file
(so no directory scan can influence it), and when that single location is
absent the response is the 404 error, regardless of what exists under any
other run directory. -/
theorem serve_image_exact_path_only (fs1 fs2 : PyPath → Bool) (cwd : PyPath)
    (path : String)
    (h : fs1 (resolveAgainst cwd ((parsePath "outputs").join (parsePath path)))
       = fs2 (resolveAgainst cwd ((parsePath "outputs").join (parsePath path)))) :
    serve_image fs1 cwd path = serve_image fs2 cwd path ∧
    (fs1 (resolveAgainst cwd ((parsePath "outputs").join (parsePath path)))
        = false →
      serve_image fs1 cwd path = .jsonErr 404 [("error", "Image not found")]) := by
  constructor
  · simp only [serve_image, pathExists, h]
  · intro hfalse
    simp only [serve_image, pathExists, hfalse]
    simp

/-- Witness for `serve_image_exact_path_only`: two oracles that agree on
the probed location `/app/outputs/run_A/img.png` (both say it is absent)
but disagree everywhere else — in particular on the `run_B` copy — and the
request still answers 404. -/
theorem serve_image_exact_path_only_witness :
    ((fun p => decide (p = (⟨true, ["app", "outputs", "run_B", "img.png"]⟩ : PyPath)))
        (resolveAgainst ⟨true, ["app"]⟩
          ((parsePath "outputs").join (parsePath "run_A/img.png")))
      = (fun _ => false)
          (resolveAgainst ⟨true, ["app"]⟩
            ((parsePath "outputs").join (parsePath "run_A/img.png")))) ∧
    serve_image
        (fun p => decide (p = (⟨true, ["app", "outputs", "run_B", "img.png"]⟩ : PyPath)))
        ⟨true, ["app"]⟩ "run_A/img.png"
      = serve_image (fun _ => false) ⟨true, ["app"]⟩ "run_A/img.png" := by
  refine ⟨by decide, ?_⟩
  exact (serve_image_exact_path_only
    (fun p => decide (p = (⟨true, ["app", "outputs", "run_B", "img.png"]⟩ : PyPath)))
    (fun _ => false) ⟨true, ["app"]⟩ "run_A/img.png" (by decide)).1

/-!
## The generation endpoint

Request validation, credential resolution, the observable process-wide
state, and the SSE stream generator as a step function over an explicit
schedule of scheduler events.
-/

/-- `GenerateRequest` from `app.py` lines 26-30.  Note: `diagram_type` is
a plain `str` field with default `"methodology"` — not an enum — and
`iterations` is an `int` with default `3`. -/
structure GenerateRequest where
  source_context : String
  communicative_intent : String
  diagram_type : String
  iterations : Int
deriving DecidableEq

/-- Defaulted tail of validation: `iterations: int = 3`. -/
def mkReq (sc ci dt : String) : Option PJson → Except String GenerateRequest
  | none => .ok ⟨sc, ci, dt, 3⟩
  | some (.num n) => .ok ⟨sc, ci, dt, n⟩
  | some _ => .error "iterations: integer expected"

/-- FastAPI/pydantic validation of the `POST /api/generate` body against
`GenerateRequest`: `source_context` and `communicative_intent` are
required strings; `diagram_type` is a string defaulting to
`"methodology"` — any string value is accepted, the field carries no enum
constraint; `iterations` is an integer defaulting to `3`.  A violation is
a `ValidationError`, answered as HTTP 422 before the handler runs. -/
def validateGenerateRequest (body : List (String × PJson)) :
    Except String GenerateRequest :=
  match body.lookup "source_context" with
  | none => .error "source_context: field required"
  | some (.str sc) =>
    (match body.lookup "communicative_intent" with
     | none => .error "communicative_intent: field required"
     | some (.str ci) =>
       (match body.lookup "diagram_type" with
        | none => mkReq sc ci "methodology" (body.lookup "iterations")
        | some (.str dt) => mkReq sc ci dt (body.lookup "iterations")
        | some _ => .error "diagram_type: string expected")
     | some _ => .error "communicative_intent: string expected")
  | some _ => .error "source_context: string expected"

/-- Modelled from the spec: `DiagramType` (defined in
`paperbanana.core.types`, which is not part of the visible source) is "an
enum over a fixed set of supported diagram kinds"; the visible source
names only the default member `"methodology"`.  As for every Python
`Enum`, constructing it from a value outside the set raises `ValueError`
(`none` here). -/
inductive DiagramType where
  | methodology
deriving DecidableEq

/-- `DiagramType(s)`: `none` models the `ValueError` raised on an
unsupported value. -/
def DiagramType.ofString (s : String) : Option DiagramType :=
  if s = "methodology" then some .methodology else none

/-- `str(e)` of the `ValueError` raised by `DiagramType(s)` for an
unsupported `s` (the standard `Enum` message). -/
def dtErrMsg (s : String) : String :=
  "'" ++ s ++ "' is not a valid DiagramType"

/-- The observable process-wide state of `app.py`: the `GOOGLE_API_KEY`
environment variable (the only process-wide state credential resolution
reads), the number of background pipeline tasks started, and the
directories created.  `Path("outputs").mkdir` happens once in the
`startup` hook, not in any request handler, and no run registry exists
anywhere in the code. -/
structure World where
  google_api_key : Option String
  tasksStarted : Nat
  dirsCreated : List String
deriving DecidableEq

/-- The `startup` event hook (app.py lines 33-36): creates `outputs`. -/
def startupHook (w : World) : World :=
  { w with dirsCreated := w.dirsCreated ++ ["outputs"] }

/-- Python truthiness of an optional string (`if header_key:`,
`if not api_key:`): `None` and the empty string are falsy. -/
def pyTruthy : Option String → Bool
  | none => false
  | some s => s ≠ ""

/-- `_resolve_api_key` from `app.py`, literally: the header value when
truthy, else `os.environ.get("GOOGLE_API_KEY")`. -/
def _resolve_api_key (header_key : Option String) (w : World) :
    Option String :=
  if pyTruthy header_key then header_key else w.google_api_key

/-- The critique object attached to an iteration record, as consumed by
`app.py` lines 179-184. -/
structure Critique where
  critic_suggestions : List String
  needs_revision : Bool
  summary : String
deriving DecidableEq

/-- An `IterationRecord` as consumed by the stream loop (fields read at
`app.py` lines 172-191). -/
structure IterationRecord where
  iteration : Int
  image_path : String
  description : String
  critique : Option Critique
deriving DecidableEq

/-- The pipeline's final result as consumed at `app.py` lines 193-201. -/
structure GenerationResult where
  iterations : List IterationRecord
  image_path : String
deriving DecidableEq

/-- One chunk yielded by the response generator: an SSE frame (kind plus
the Python dict passed to `_sse`), or the literal keepalive comment
`": keepalive\n\n"` from line 169. -/
inductive Ev where
  | frame (kind : String) (payload : List (String × PJson))
  | keepalive

/-- The wire form of a yielded chunk. -/
def wireOf : Ev → String
  | .frame kind payload => _sse kind (.obj payload)
  | .keepalive => ": keepalive\n\n"

/-- Is a chunk a terminal (`complete` or `error`) frame? -/
def isTerminalEv : Ev → Bool
  | .frame kind _ => kind == "complete" || kind == "error"
  | .keepalive => false

/-- One scheduler event observed by the generator while it is suspended:
the pipeline's `on_iteration` callback enqueues a record (`push`), the
background task completes — successfully or not (`finish`), or the
5-second `wait_for` timeout fires with nothing new (`tick`). -/
inductive EnvAct where
  | push (r : IterationRecord)
  | finish
  | tick
deriving DecidableEq

/-- Everything outside the generator that determines one run of the
stream: the working directory and filesystem oracle (for
`_to_image_url`), the schedule of scheduler events, and the background
task's outcome when awaited (`Except.error msg` models the task raising,
with `str(e) = msg`). -/
structure PipeCtx where
  cwd : PyPath
  fs : PyPath → Bool
  sched : List EnvAct
  taskResult : Except String GenerationResult

/-- Python `record.description[:500]`. -/
def take500 (s : String) : String :=
  String.mk (s.data.take 500)

/-- The `critique` payload field (app.py lines 178-184): `null` when the
record carries no critique, else the three-field object. -/
def critiquePayload : Option Critique → PJson
  | none => .null
  | some c =>
    .obj [("suggestions", .arr (c.critic_suggestions.map .str)),
          ("needs_revision", .bool c.needs_revision),
          ("summary", .str c.summary)]

/-- `PJson.null`-or-`PJson.str` image of an optional URL. -/
def optUrl : Option String → PJson
  | some u => .str u
  | none => .null

/-- The `iteration` event payload (app.py lines 186-191). -/
def iterationPayload (cwd : PyPath) (fs : PyPath → Bool)
    (r : IterationRecord) : List (String × PJson) :=
  [("iteration", .num r.iteration),
   ("image_url", optUrl (_to_image_url fs cwd r.image_path)),
   ("description", .str (take500 r.description)),
   ("critique", critiquePayload r.critique)]

/-- The two frames yielded per dequeued record (app.py lines 172-191): a
progress `status` frame, then the `iteration` frame. -/
def emitRecord (cwd : PyPath) (fs : PyPath → Bool) (reqIters : Int)
    (r : IterationRecord) : List Ev :=
  [.frame "status" [("message", .str ("Completed iteration " ++
      String.mk (intChars r.iteration) ++ "/" ++
      String.mk (intChars reqIters)))],
   .frame "iteration" (iterationPayload cwd fs r)]

/-- The `while not task.done() or not queue.empty():` loop of the stream
generator (app.py lines 163-191), driven by an explicit schedule.
State: `sched` — remaining scheduler events; `q` — the `asyncio.Queue`
contents (FIFO); `d` — `task.done()`; the final `Bool` argument — the
generator is suspended inside `asyncio.wait_for(queue.get(), 5.0)`.
Result: the chunks yielded by the loop, and whether the loop exited
(reaching `result = await task`); `false` means the schedule ended with
the generator still suspended.

Scheduling fidelity: the generator and the pipeline task share one event
loop, so queue pushes (`await queue.put(record)` in `on_iteration`)
happen only while the generator is suspended; a push wakes the pending
`get`, which takes the queue head when the generator resumes; `finish`
while suspended flips `task.done()` but does not wake the `get`; a
`tick` (timeout) with the task done triggers the `break`, and with the
task running yields the keepalive comment and re-enters the loop.  The
loop condition exits only when the task is done *and* the queue is
empty; a nonempty queue is drained (head first) without touching the
schedule. -/
def streamLoop (cwd : PyPath) (fs : PyPath → Bool) (reqIters : Int) :
    List EnvAct → List IterationRecord → Bool → Bool → List Ev × Bool
  | sched, q, d, true =>
    (match sched with
     | [] => ([], false)
     | .push r :: rest => streamLoop cwd fs reqIters rest (q ++ [r]) d false
     | .finish :: rest => streamLoop cwd fs reqIters rest q true true
     | .tick :: rest =>
       if d then ([], true)
       else
         let p := streamLoop cwd fs reqIters rest q d false
         (.keepalive :: p.1, p.2))
  | sched, q, d, false =>
    if d ∧ q = [] then ([], true)
    else
      match q with
      | r :: q2 =>
        let p := streamLoop cwd fs reqIters sched q2 d false
        (emitRecord cwd fs reqIters r ++ p.1, p.2)
      | [] => streamLoop cwd fs reqIters sched [] d true
termination_by sched q d w => (sched.length, q.length, if w then 0 else 1)

/-- The records enqueued by callbacks that fire before the task
completes: the `push`es occurring before the first `finish` of a
schedule. -/
def pushesBeforeFinish : List EnvAct → List IterationRecord
  | [] => []
  | .finish :: _ => []
  | .push r :: rest => r :: pushesBeforeFinish rest
  | .tick :: rest => pushesBeforeFinish rest

/-- The `complete` event payload (app.py lines 197-201), exactly the dict
literal in the code: `message`, `final_image_url`, `total_iterations` —
and nothing else. -/
def completePayload (c : PipeCtx) (res : GenerationResult) :
    List (String × PJson) :=
  [("message", .str "Generation complete!"),
   ("final_image_url", optUrl (_to_image_url c.fs c.cwd res.image_path)),
   ("total_iterations", .num (res.iterations.length : Int))]

/-- The terminal frame: `complete` on task success, `error` (with
`str(e)`) when `await task` re-raises the task's exception into the
`except` block. -/
def terminalEv (c : PipeCtx) : Ev :=
  match c.taskResult with
  | .error msg => .frame "error" [("message", .str msg)]
  | .ok res => .frame "complete" (completePayload c res)

/-- The full sequence of chunks yielded by one run of `stream()` (app.py
lines 131-205) for an accepted request `req`: the initializing `status`
frame; then — if `DiagramType(req.diagram_type)` raises — the single
`error` frame from the `except` block; otherwise the planning `status`
frame, the loop's chunks, and (when the loop exited rather than the
schedule ending with the generator suspended) the terminal frame. -/
def streamEvents (c : PipeCtx) (req : GenerateRequest) : List Ev :=
  .frame "status" [("message", .str "Initializing pipeline...")] ::
    match DiagramType.ofString req.diagram_type with
    | none => [.frame "error" [("message", .str (dtErrMsg req.diagram_type))]]
    | some _ =>
      .frame "status"
          [("message", .str "Planning diagram (this may take a minute)...")] ::
        (let p := streamLoop c.cwd c.fs req.iterations c.sched [] false false
         p.1 ++ if p.2 then [terminalEv c] else [])

/-- Responses of `POST /api/generate`: the early 401 `JSONResponse`, or
the 200 `StreamingResponse` whose chunks are the generator's output. -/
inductive GenResponse where
  | json (status : Nat) (body : List (String × String))
  | stream (events : List Ev)

/-- The world after the `stream()` body has executed (app.py lines
139-159): the resolved key is written into
`os.environ["GOOGLE_API_KEY"]` before anything else in the `try` block,
and the background task is started only when
`DiagramType(req.diagram_type)` succeeds. -/
def streamWorldEffect (apiKey : String) (req : GenerateRequest)
    (w : World) : World :=
  let w1 := { w with google_api_key := some apiKey }
  match DiagramType.ofString req.diagram_type with
  | none => w1
  | some _ => { w1 with tasksStarted := w1.tasksStarted + 1 }

/-- `generate` from `app.py` (lines 122-214), with the lazy execution of
the streaming body folded in: resolve the credential; when it is falsy
return the 401 JSON error with the world untouched; otherwise return the
streaming response and the world effect of running its body. -/
def generate (req : GenerateRequest) (x_api_key : Option String)
    (c : PipeCtx) (w : World) : GenResponse × World :=
  let apiKey := _resolve_api_key x_api_key w
  if pyTruthy apiKey = false then
    (.json 401
      [("error", "No API key provided. Please enter your Google Gemini API key.")],
     w)
  else
    (.stream (streamEvents c req), streamWorldEffect (apiKey.getD "") req w)

/-- The FastAPI layer around `generate`: the body is validated against
`GenerateRequest` before the handler runs; a `ValidationError` is
answered 422 and the handler (and the pipeline) is never touched. -/
def handleGenerate (body : List (String × PJson)) (x_api_key : Option String)
    (c : PipeCtx) (w : World) : GenResponse × World :=
  match validateGenerateRequest body with
  | .error e => (.json 422 [("detail", e)], w)
  | .ok req => generate req x_api_key c w

/-- `C6`: when neither the request header nor the process-wide fallback
yields a truthy credential, `generate` answers 401 with a JSON error body
and performs no side effects: the world — the `GOOGLE_API_KEY`
environment variable, the background-task count, the created directories
(and there is no run registry in the code to touch at all) — is returned
exactly unchanged. -/
theorem generate_401_no_side_effects (req : GenerateRequest)
    (x_api_key : Option String) (c : PipeCtx) (w : World)
    (h : pyTruthy (_resolve_api_key x_api_key w) = false) :
    generate req x_api_key c w =
      (.json 401
        [("error", "No API key provided. Please enter your Google Gemini API key.")],
       w) := by
  simp [generate, h]

/-- Witness for `generate_401_no_side_effects`: no header, no
`GOOGLE_API_KEY` in the environment. -/
theorem generate_401_no_side_effects_witness :
    pyTruthy (_resolve_api_key none ⟨none, 0, []⟩) = false ∧
    generate ⟨"sec 3", "show the flow", "methodology", 3⟩ none
        ⟨⟨true, ["app"]⟩, fun _ => false, [], .ok ⟨[], ""⟩⟩ ⟨none, 0, []⟩ =
      (.json 401
        [("error", "No API key provided. Please enter your Google Gemini API key.")],
       ⟨none, 0, []⟩) :=
  ⟨by decide, generate_401_no_side_effects _ _ _ _ (by decide)⟩

/-- `C7` (counterexample): handling one request persists the resolved
credential.  Starting from a world with no `GOOGLE_API_KEY` set, a
request carrying the header key `"sk-test"` leaves
`GOOGLE_API_KEY="sk-test"` in the process environment — exactly the
process-wide state credential resolution reads (`app.py` line 144,
`os.environ["GOOGLE_API_KEY"] = api_key`) — and a later request with no
header now resolves to the previous caller's key. -/
theorem api_key_persisted_cex :
    (World.google_api_key ⟨none, 0, []⟩ ≠ some "sk-test") ∧
    ((generate ⟨"sec 3", "show the flow", "methodology", 3⟩ (some "sk-test")
        ⟨⟨true, ["app"]⟩, fun _ => false, [], .ok ⟨[], ""⟩⟩
        ⟨none, 0, []⟩).2.google_api_key = some "sk-test") ∧
    (_resolve_api_key none
        (generate ⟨"sec 3", "show the flow", "methodology", 3⟩ (some "sk-test")
          ⟨⟨true, ["app"]⟩, fun _ => false, [], .ok ⟨[], ""⟩⟩
          ⟨none, 0, []⟩).2 = some "sk-test") := by
  refine ⟨by decide, by rfl, by rfl⟩

/-- `C7` (amended): whenever the stream body runs (any truthy resolved
credential), `os.environ["GOOGLE_API_KEY"]` is set to the resolved key —
the credential *is* persisted into the process-wide fallback, and a
subsequent request without a header resolves to it.  Only the 401
rejection path leaves the process-wide state unchanged
(`generate_401_no_side_effects`). -/
theorem api_key_persisted (req : GenerateRequest) (x_api_key : Option String)
    (c : PipeCtx) (w : World)
    (h : pyTruthy (_resolve_api_key x_api_key w) = true) :
    ((generate req x_api_key c w).2.google_api_key
        = _resolve_api_key x_api_key w) ∧
    (_resolve_api_key none (generate req x_api_key c w).2
        = _resolve_api_key x_api_key w) := by
  have h1 : (generate req x_api_key c w).2.google_api_key
      = _resolve_api_key x_api_key w := by
    cases hx : _resolve_api_key x_api_key w with
    | none => rw [hx] at h; simp [pyTruthy] at h
    | some s =>
      rw [hx] at h
      simp only [generate, hx, h]
      rw [if_neg (by simp [h])]
      cases hdt : DiagramType.ofString req.diagram_type <;>
        simp [streamWorldEffect, hdt]
  exact ⟨h1, by simp [_resolve_api_key, pyTruthy, h1]⟩

/-- Witness for `api_key_persisted`: header `"sk-test"`, empty initial
environment. -/
theorem api_key_persisted_witness :
    pyTruthy (_resolve_api_key (some "sk-test") ⟨none, 0, []⟩) = true ∧
    ((generate ⟨"sec 3", "show the flow", "methodology", 3⟩ (some "sk-test")
        ⟨⟨true, ["app"]⟩, fun _ => false, [], .ok ⟨[], ""⟩⟩
        ⟨none, 0, []⟩).2.google_api_key
      = _resolve_api_key (some "sk-test") ⟨none, 0, []⟩) :=
  ⟨by decide, (api_key_persisted _ _ _ _ (by decide)).1⟩

/-- `C4` (counterexample): a body whose `diagram_type` is far outside any
enum of diagram kinds passes input validation — `diagram_type` is a plain
`str` field — so the request is *not* rejected with 422: the handler runs
and an event stream begins (and the enum failure then surfaces only
in-band as an `error` frame). -/
theorem invalid_diagram_type_not_422_cex :
    (validateGenerateRequest
        [("source_context", .str "sec 3"),
         ("communicative_intent", .str "show the flow"),
         ("diagram_type", .str "not-a-diagram-kind")]
      = .ok ⟨"sec 3", "show the flow", "not-a-diagram-kind", 3⟩) ∧
    ((handleGenerate
        [("source_context", .str "sec 3"),
         ("communicative_intent", .str "show the flow"),
         ("diagram_type", .str "not-a-diagram-kind")]
        (some "sk-test")
        ⟨⟨true, ["app"]⟩, fun _ => false, [], .ok ⟨[], ""⟩⟩ ⟨none, 0, []⟩).1
      = .stream
          [.frame "status" [("message", .str "Initializing pipeline...")],
           .frame "error"
             [("message", .str (dtErrMsg "not-a-diagram-kind"))]]) := by
  exact ⟨by rfl, by rfl⟩

/-- `C4` (amended): input validation answers 422 only for missing or
wrongly-typed required fields; any string whatsoever is accepted as
`diagram_type`, so a request with an unsupported diagram kind reaches the
handler, a 200 event stream begins, and the enum failure surfaces in-band
as the single `error` frame after the initializing `status` frame. -/
theorem invalid_diagram_type_streams_error (sc ci dt : String)
    (x_api_key : Option String) (c : PipeCtx) (w : World)
    (hdt : DiagramType.ofString dt = none)
    (hkey : pyTruthy (_resolve_api_key x_api_key w) = true) :
    (validateGenerateRequest
        [("source_context", .str sc), ("communicative_intent", .str ci),
         ("diagram_type", .str dt)]
      = .ok ⟨sc, ci, dt, 3⟩) ∧
    ((handleGenerate
        [("source_context", .str sc), ("communicative_intent", .str ci),
         ("diagram_type", .str dt)] x_api_key c w).1
      = .stream
          [.frame "status" [("message", .str "Initializing pipeline...")],
           .frame "error" [("message", .str (dtErrMsg dt))]]) := by
  have hv : validateGenerateRequest
      [("source_context", .str sc), ("communicative_intent", .str ci),
       ("diagram_type", .str dt)] = .ok ⟨sc, ci, dt, 3⟩ := by
    simp [validateGenerateRequest, List.lookup, mkReq]
  refine ⟨hv, ?_⟩
  simp only [handleGenerate, hv, generate]
  rw [if_neg (by simp [hkey])]
  simp [streamEvents, hdt]

/-- Witness for `invalid_diagram_type_streams_error` at a concrete body,
header and world. -/
theorem invalid_diagram_type_streams_error_witness :
    DiagramType.ofString "not-a-real-kind" = none ∧
    pyTruthy (_resolve_api_key (some "sk-test") ⟨none, 0, []⟩) = true ∧
    (validateGenerateRequest
        [("source_context", .str "intro"), ("communicative_intent", .str "overview"),
         ("diagram_type", .str "not-a-real-kind")]
      = .ok ⟨"intro", "overview", "not-a-real-kind", 3⟩) :=
  ⟨by decide, by decide,
   (invalid_diagram_type_streams_error "intro" "overview" "not-a-real-kind"
      (some "sk-test")
      ⟨⟨true, ["app"]⟩, fun _ => false, [], .ok ⟨[], ""⟩⟩ ⟨none, 0, []⟩
      (by decide) (by decide)).1⟩

theorem streamLoop_enter_wait (cwd : PyPath) (fs : PyPath → Bool)
    (reqIters : Int) (sched : List EnvAct) :
    streamLoop cwd fs reqIters sched [] false false
      = streamLoop cwd fs reqIters sched [] false true := by
  simp [streamLoop]

theorem streamLoop_no_terminal (cwd : PyPath) (fs : PyPath → Bool)
    (reqIters : Int) (sched : List EnvAct) (q : List IterationRecord)
    (d w : Bool) :
    ∀ e ∈ (streamLoop cwd fs reqIters sched q d w).1, isTerminalEv e = false := by
  induction sched, q, d, w using streamLoop.induct cwd fs reqIters with
  | case1 q d => simp [streamLoop]
  | case2 q d r rest ih => simpa only [streamLoop] using ih
  | case3 q d rest ih => simpa only [streamLoop] using ih
  | case4 q rest => simp [streamLoop]
  | case5 q d rest hd ih =>
    intro e he
    simp only [streamLoop, if_neg hd] at he
    rcases List.mem_cons.mp he with rfl | he
    · rfl
    · exact ih e he
  | case6 sched q d h =>
    obtain ⟨hd, hq⟩ := h
    subst hd
    subst hq
    simp [streamLoop]
  | case7 sched d r q2 h ih =>
    intro e he
    simp only [streamLoop, if_neg h] at he
    rcases List.mem_append.mp he with he | he
    · rcases List.mem_cons.mp he with rfl | he
      · rfl
      rcases List.mem_cons.mp he with rfl | he
      · rfl
      · exact absurd he (List.not_mem_nil e)
    · exact ih e he
  | case8 sched d h ih =>
    have hd : d = false := by
      cases d with
      | false => rfl
      | true => exact absurd ⟨rfl, rfl⟩ h
    subst hd
    rw [streamLoop_enter_wait]
    exact ih

theorem streamLoop_exit_has_finish (cwd : PyPath) (fs : PyPath → Bool)
    (reqIters : Int) (sched : List EnvAct) (q : List IterationRecord)
    (d w : Bool) :
    (streamLoop cwd fs reqIters sched q d w).2 = true →
    d = true ∨ EnvAct.finish ∈ sched := by
  induction sched, q, d, w using streamLoop.induct cwd fs reqIters with
  | case1 q d => intro h; simp [streamLoop] at h
  | case2 q d r rest ih =>
    intro h
    simp only [streamLoop] at h
    rcases ih h with hd | hm
    · exact Or.inl hd
    · exact Or.inr (List.mem_cons_of_mem _ hm)
  | case3 q d rest ih =>
    intro h
    exact Or.inr (List.mem_cons_self _ _)
  | case4 q rest => intro h; exact Or.inl rfl
  | case5 q d rest hd ih =>
    intro h
    simp only [streamLoop, if_neg hd] at h
    rcases ih h with h2 | hm
    · exact Or.inl h2
    · exact Or.inr (List.mem_cons_of_mem _ hm)
  | case6 sched q d h => intro h2; exact Or.inl h.1
  | case7 sched d r q2 h ih =>
    intro h2
    simp only [streamLoop, if_neg h] at h2
    exact ih h2
  | case8 sched d h ih =>
    have hd : d = false := by
      cases d with
      | false => rfl
      | true => exact absurd ⟨rfl, rfl⟩ h
    subst hd
    rw [streamLoop_enter_wait]
    exact ih

theorem streamLoop_drains (cwd : PyPath) (fs : PyPath → Bool)
    (reqIters : Int) (sched : List EnvAct) (q : List IterationRecord)
    (d w : Bool) :
    (w = true → q = []) →
    (streamLoop cwd fs reqIters sched q d w).2 = true →
    ∀ r, (r ∈ q ∨ (d = false ∧ r ∈ pushesBeforeFinish sched)) →
      Ev.frame "iteration" (iterationPayload cwd fs r)
        ∈ (streamLoop cwd fs reqIters sched q d w).1 := by
  induction sched, q, d, w using streamLoop.induct cwd fs reqIters with
  | case1 q d =>
    intro hwq hex r hr
    simp [streamLoop] at hex
  | case2 q d r0 rest ih =>
    intro hwq hex r hr
    simp only [streamLoop] at hex ⊢
    refine ih (by simp) hex r ?_
    rcases hr with hq | ⟨hd, hp⟩
    · exact Or.inl (List.mem_append_left _ hq)
    · simp only [pushesBeforeFinish] at hp
      rcases List.mem_cons.mp hp with rfl | hp2
      · exact Or.inl (List.mem_append_right _ (List.mem_singleton_self r))
      · exact Or.inr ⟨hd, hp2⟩
  | case3 q d rest ih =>
    intro hwq hex r hr
    have hq : q = [] := hwq rfl
    subst hq
    simp only [streamLoop] at hex ⊢
    refine ih (fun _ => rfl) hex r ?_
    rcases hr with hq | ⟨hd, hp⟩
    · exact Or.inl hq
    · simp [pushesBeforeFinish] at hp
  | case4 q rest =>
    intro hwq hex r hr
    have hq : q = [] := hwq rfl
    subst hq
    rcases hr with hq | ⟨hd, hp⟩
    · exact absurd hq (List.not_mem_nil r)
    · exact absurd hd (by decide)
  | case5 q d rest hd ih =>
    intro hwq hex r hr
    simp only [streamLoop, if_neg hd] at hex ⊢
    refine List.mem_cons_of_mem _ (ih (by simp) hex r ?_)
    rcases hr with hq | ⟨hd2, hp⟩
    · exact Or.inl hq
    · simp only [pushesBeforeFinish] at hp
      exact Or.inr ⟨hd2, hp⟩
  | case6 sched q d h =>
    intro hwq hex r hr
    rcases hr with hq | ⟨hd, hp⟩
    · rw [h.2] at hq
      exact absurd hq (List.not_mem_nil r)
    · rw [h.1] at hd
      exact absurd hd (by decide)
  | case7 sched d r0 q2 h ih =>
    intro hwq hex r hr
    simp only [streamLoop, if_neg h] at hex ⊢
    rcases hr with hq | ⟨hd, hp⟩
    · rcases List.mem_cons.mp hq with rfl | hq2
      · refine List.mem_append_left _ ?_
        simp [emitRecord]
      · exact List.mem_append_right _ (ih (by simp) hex r (Or.inl hq2))
    · exact List.mem_append_right _ (ih (by simp) hex r (Or.inr ⟨hd, hp⟩))
  | case8 sched d h ih =>
    intro hwq hex r hr
    have hd : d = false := by
      cases d with
      | false => rfl
      | true => exact absurd ⟨rfl, rfl⟩ h
    subst hd
    rw [streamLoop_enter_wait] at hex ⊢
    exact ih (fun _ => rfl) hex r hr

/-- `C1`: the streaming loop exits only once the background task has
finished (the exit requires a `finish` in the schedule) with the queue
drained, so every record pushed before the task completed is emitted as
an `iteration` frame strictly before the terminal `complete`-or-`error`
frame: the whole stream decomposes as a prefix containing the record's
`iteration` frame followed by exactly the terminal frame. -/
theorem every_push_before_finish_emitted (c : PipeCtx) (req : GenerateRequest)
    (r : IterationRecord) (dt : DiagramType)
    (hdt : DiagramType.ofString req.diagram_type = some dt)
    (hex : (streamLoop c.cwd c.fs req.iterations c.sched [] false false).2 = true)
    (hr : r ∈ pushesBeforeFinish c.sched) :
    EnvAct.finish ∈ c.sched ∧
    ∃ pre, streamEvents c req = pre ++ [terminalEv c] ∧
      Ev.frame "iteration" (iterationPayload c.cwd c.fs r) ∈ pre ∧
      isTerminalEv (terminalEv c) = true := by
  refine ⟨?_, ?_⟩
  · rcases streamLoop_exit_has_finish c.cwd c.fs req.iterations c.sched []
      false false hex with h | h
    · exact absurd h (by decide)
    · exact h
  · refine ⟨.frame "status" [("message", .str "Initializing pipeline...")] ::
      .frame "status"
        [("message", .str "Planning diagram (this may take a minute)...")] ::
      (streamLoop c.cwd c.fs req.iterations c.sched [] false false).1,
      ?_, ?_, ?_⟩
    · simp only [streamEvents, hdt]
      simp [hex]
    · exact List.mem_cons_of_mem _ (List.mem_cons_of_mem _
        (streamLoop_drains c.cwd c.fs req.iterations c.sched [] false false
          (by simp) hex r (Or.inr ⟨rfl, hr⟩)))
    · rcases h : c.taskResult with msg | res <;> simp [terminalEv, h, isTerminalEv]

/-- Witness for `every_push_before_finish_emitted`: one record pushed,
then the task finishes and the next timeout exits the loop. -/
theorem every_push_before_finish_emitted_witness :
    (DiagramType.ofString "methodology" = some DiagramType.methodology) ∧
    ((streamLoop ⟨true, ["app"]⟩ (fun _ => false) (3 : Int)
        [.push ⟨1, "img1.png", "d", none⟩, .finish, .tick] [] false false).2
      = true) ∧
    ((⟨1, "img1.png", "d", none⟩ : IterationRecord) ∈
      pushesBeforeFinish [.push ⟨1, "img1.png", "d", none⟩, .finish, .tick]) ∧
    EnvAct.finish ∈
      ([.push ⟨1, "img1.png", "d", none⟩, .finish, .tick] : List EnvAct) := by
  have hex : (streamLoop ⟨true, ["app"]⟩ (fun _ => false) (3 : Int)
      [.push ⟨1, "img1.png", "d", none⟩, .finish, .tick] [] false false).2
      = true := by
    simp [streamLoop]
  refine ⟨by decide, hex, by decide, ?_⟩
  exact (every_push_before_finish_emitted
    ⟨⟨true, ["app"]⟩, fun _ => false,
      [.push ⟨1, "img1.png", "d", none⟩, .finish, .tick],
      .ok ⟨[⟨1, "img1.png", "d", none⟩], "final.png"⟩⟩
    ⟨"sec 3", "flow", "methodology", 3⟩
    ⟨1, "img1.png", "d", none⟩ .methodology (by decide) hex (by decide)).1

/-- `C2`: a stream never carries anything after its terminal frame: every
chunk other than the final one is a non-terminal (`status`, `iteration`
or keepalive) chunk, so at most one `complete`-or-`error` frame is
emitted and no `iteration` or `status` frame follows it. -/
theorem terminal_event_last_and_unique (c : PipeCtx) (req : GenerateRequest) :
    ∀ e ∈ (streamEvents c req).dropLast, isTerminalEv e = false := by
  intro e he
  rcases hdt : DiagramType.ofString req.diagram_type with _ | dt
  · simp only [streamEvents, hdt] at he
    simp only [List.dropLast] at he
    rcases List.mem_singleton.mp he with rfl
    rfl
  · simp only [streamEvents, hdt] at he
    rcases hex : (streamLoop c.cwd c.fs req.iterations c.sched [] false false).2
      with _ | _
    · rw [hex] at he
      rw [show (if false = true then [terminalEv c] else ([] : List Ev)) = []
        from rfl, List.append_nil] at he
      have hsub := (List.dropLast_sublist _).subset he
      rcases List.mem_cons.mp hsub with rfl | hsub
      · rfl
      rcases List.mem_cons.mp hsub with rfl | hsub
      · rfl
      · exact streamLoop_no_terminal c.cwd c.fs req.iterations c.sched []
          false false e hsub
    · rw [hex] at he
      rw [show (if true = true then [terminalEv c] else ([] : List Ev))
        = [terminalEv c] from rfl] at he
      rw [List.dropLast_cons_of_ne_nil (by simp),
        List.dropLast_cons_of_ne_nil (by simp),
        List.dropLast_concat] at he
      rcases List.mem_cons.mp he with rfl | he
      · rfl
      rcases List.mem_cons.mp he with rfl | he
      · rfl
      · exact streamLoop_no_terminal c.cwd c.fs req.iterations c.sched []
          false false e he

/-- Witness for `terminal_event_last_and_unique`: in the stream of a
completed run (`[finish, tick]` schedule) the first chunk — the
initializing `status` frame, which lies in `dropLast` — is not
terminal. -/
theorem terminal_event_last_and_unique_witness :
    (Ev.frame "status" [("message", .str "Initializing pipeline...")] ∈
      (streamEvents
        ⟨⟨true, ["app"]⟩, fun _ => false, [.finish, .tick], .ok ⟨[], "f.png"⟩⟩
        ⟨"sec 3", "flow", "methodology", 3⟩).dropLast) ∧
    isTerminalEv (Ev.frame "status"
      [("message", .str "Initializing pipeline...")]) = false := by
  have hm : Ev.frame "status" [("message", .str "Initializing pipeline...")] ∈
      (streamEvents
        ⟨⟨true, ["app"]⟩, fun _ => false, [.finish, .tick], .ok ⟨[], "f.png"⟩⟩
        ⟨"sec 3", "flow", "methodology", 3⟩).dropLast := by
    simp [streamEvents, streamLoop, DiagramType.ofString, List.dropLast]
  exact ⟨hm, terminal_event_last_and_unique _ _ _ hm⟩

/-- `C5` (counterexample): the `complete` payload carries no `run_id`.
A complete successful run (`[finish, tick]` schedule, empty iteration
list, missing final file) yields exactly
`status, status, complete` with the `complete` payload holding exactly
the keys `message`, `final_image_url`, `total_iterations` — `run_id` is
absent, contradicting the claimed exact field set. -/
theorem complete_payload_missing_run_id_cex :
    (streamEvents
        ⟨⟨true, ["app"]⟩, fun _ => false, [.finish, .tick], .ok ⟨[], "f.png"⟩⟩
        ⟨"sec 3", "flow", "methodology", 3⟩ =
      [.frame "status" [("message", .str "Initializing pipeline...")],
       .frame "status"
         [("message", .str "Planning diagram (this may take a minute)...")],
       .frame "complete"
         [("message", .str "Generation complete!"),
          ("final_image_url", .null),
          ("total_iterations", .num 0)]]) ∧
    ((completePayload
        ⟨⟨true, ["app"]⟩, fun _ => false, [.finish, .tick], .ok ⟨[], "f.png"⟩⟩
        ⟨[], "f.png"⟩).map Prod.fst
      = ["message", "final_image_url", "total_iterations"]) ∧
    "run_id" ∉ ((completePayload
        ⟨⟨true, ["app"]⟩, fun _ => false, [.finish, .tick], .ok ⟨[], "f.png"⟩⟩
        ⟨[], "f.png"⟩).map Prod.fst) := by
  refine ⟨?_, by decide, by decide⟩
  simp [streamEvents, streamLoop, DiagramType.ofString, terminalEv,
    completePayload, _to_image_url, pathExists, optUrl]

/-- `C5` (amended): for every successfully completed generation the
single `complete` frame — no other `complete` frame is ever yielded —
carries a payload with exactly the fields `message`, `final_image_url`
and `total_iterations` (no `run_id`), and `total_iterations` equals the
number of iterations in the pipeline's result. -/
theorem complete_payload_fields (c : PipeCtx) (req : GenerateRequest)
    (res : GenerationResult) (hres : c.taskResult = .ok res) :
    (∀ payload, Ev.frame "complete" payload ∈ streamEvents c req →
        payload = completePayload c res) ∧
    ((completePayload c res).map Prod.fst
        = ["message", "final_image_url", "total_iterations"]) ∧
    ((completePayload c res).lookup "total_iterations"
        = some (.num (res.iterations.length : Int))) := by
  refine ⟨?_, rfl, rfl⟩
  intro payload hmem
  rcases hdt : DiagramType.ofString req.diagram_type with _ | dt
  · simp only [streamEvents, hdt] at hmem
    rcases List.mem_cons.mp hmem with h | hmem
    · simp [Ev.frame.injEq] at h
    rcases List.mem_cons.mp hmem with h | hmem
    · simp [Ev.frame.injEq] at h
    · exact absurd hmem (List.not_mem_nil _)
  · simp only [streamEvents, hdt] at hmem
    rcases List.mem_cons.mp hmem with h | hmem
    · simp [Ev.frame.injEq] at h
    rcases List.mem_cons.mp hmem with h | hmem
    · simp [Ev.frame.injEq] at h
    rcases List.mem_append.mp hmem with h | h
    · have := streamLoop_no_terminal c.cwd c.fs req.iterations c.sched []
        false false _ h
      simp [isTerminalEv] at this
    · rcases hex : (streamLoop c.cwd c.fs req.iterations c.sched []
        false false).2 with _ | _
      · rw [hex] at h
        rw [show (if false = true then [terminalEv c] else ([] : List Ev)) = []
          from rfl] at h
        exact absurd h (List.not_mem_nil _)
      · rw [hex] at h
        rw [show (if true = true then [terminalEv c] else ([] : List Ev))
          = [terminalEv c] from rfl] at h
        have hterm := List.mem_singleton.mp h
        rw [terminalEv, hres] at hterm
        exact (Ev.frame.injEq _ _ _ _).mp hterm |>.2

/-- Witness for `complete_payload_fields` at a run whose result has two
iteration records. -/
theorem complete_payload_fields_witness :
    ((⟨⟨true, ["app"]⟩, fun _ => false, [.finish, .tick],
        .ok ⟨[⟨1, "a.png", "d1", none⟩, ⟨2, "b.png", "d2", none⟩], "f.png"⟩⟩ :
        PipeCtx).taskResult
      = .ok ⟨[⟨1, "a.png", "d1", none⟩, ⟨2, "b.png", "d2", none⟩], "f.png"⟩) ∧
    ((completePayload
        ⟨⟨true, ["app"]⟩, fun _ => false, [.finish, .tick],
          .ok ⟨[⟨1, "a.png", "d1", none⟩, ⟨2, "b.png", "d2", none⟩], "f.png"⟩⟩
        ⟨[⟨1, "a.png", "d1", none⟩, ⟨2, "b.png", "d2", none⟩], "f.png"⟩).lookup
        "total_iterations"
      = some (.num 2)) := by
  refine ⟨rfl, ?_⟩
  exact (complete_payload_fields
    ⟨⟨true, ["app"]⟩, fun _ => false, [.finish, .tick],
      .ok ⟨[⟨1, "a.png", "d1", none⟩, ⟨2, "b.png", "d2", none⟩], "f.png"⟩⟩
    ⟨"sec 3", "flow", "methodology", 3⟩
    ⟨[⟨1, "a.png", "d1", none⟩, ⟨2, "b.png", "d2", none⟩], "f.png"⟩ rfl).2.2

/-- `C10`: when the file at a record's `image_path` (or at the final
result's `image_path`) does not exist at emission time, `_to_image_url`
returns `None`, so the `iteration` frame's `image_url` field — and the
`complete` frame's `final_image_url` field — is JSON `null` rather than a
dangling link. -/
theorem missing_image_gives_null_url (c : PipeCtx) (r : IterationRecord)
    (res : GenerationResult)
    (hr : pathExists c.fs c.cwd (parsePath r.image_path) = false)
    (hres : c.taskResult = .ok res)
    (hfin : pathExists c.fs c.cwd (parsePath res.image_path) = false) :
    (_to_image_url c.fs c.cwd r.image_path = none) ∧
    ((iterationPayload c.cwd c.fs r).lookup "image_url" = some .null) ∧
    (terminalEv c = .frame "complete" (completePayload c res)) ∧
    ((completePayload c res).lookup "final_image_url" = some .null) := by
  have h1 : _to_image_url c.fs c.cwd r.image_path = none := by
    simp only [_to_image_url, hr]
    rfl
  have h2 : _to_image_url c.fs c.cwd res.image_path = none := by
    simp only [_to_image_url, hfin]
    rfl
  refine ⟨h1, ?_, ?_, ?_⟩
  · simp [iterationPayload, h1, optUrl, List.lookup]
  · simp [terminalEv, hres]
  · simp [completePayload, h2, optUrl, List.lookup]

/-- Witness for `missing_image_gives_null_url`: an empty filesystem. -/
theorem missing_image_gives_null_url_witness :
    (pathExists (fun _ => false) ⟨true, ["app"]⟩
        (parsePath "outputs/run_x/diagram_iter_1.png") = false) ∧
    ((iterationPayload ⟨true, ["app"]⟩ (fun _ => false)
        ⟨1, "outputs/run_x/diagram_iter_1.png", "d", none⟩).lookup "image_url"
      = some .null) := by
  refine ⟨rfl, ?_⟩
  exact (missing_image_gives_null_url
    ⟨⟨true, ["app"]⟩, fun _ => false, [], .ok ⟨[], "outputs/run_x/final.png"⟩⟩
    ⟨1, "outputs/run_x/diagram_iter_1.png", "d", none⟩
    ⟨[], "outputs/run_x/final.png"⟩ rfl rfl rfl).2.1
